import Mathlib

/-!
Shallow embedding of the realtime data-synchronization layer of the
TerraGuard dashboard (frontend hook `useSupabaseRealtime.js` and the
recommendation-service response decode in the frontend API module),
together with proofs about the merge rule, the re-sort comparator, the
reconnect state machine, the field-mapping transform, the filter
construction and the response-envelope decode.

JavaScript scalars are modelled by `JsVal`: `vUndef`/`vNull` for
`undefined`/`null`, booleans, numbers as rationals (IEEE NaN is not a
value of the model; it arises only via `toNumber`, which returns `none`
for it), and strings. JavaScript objects appearing as table records are
association lists with unique keys.
-/

namespace TerraGuard

inductive JsVal where
  | vUndef
  | vNull
  | vBool (b : Bool)
  | vNum (q : ℚ)
  | vStr (s : String)
  deriving DecidableEq

abbrev Record := List (String × JsVal)

/-- Property read `r.k`: the first binding of `k`, or `undefined` when absent. -/
def getF (r : Record) (k : String) : JsVal :=
  (r.lookup k).getD JsVal.vUndef

/-- Object-spread update `{...r, k: v}`: replaces the binding of `k` in place,
or appends it when absent (JS object key order). -/
def setF : Record → String → JsVal → Record
  | [], k, v => [(k, v)]
  | (k0, v0) :: rest, k, v =>
      if k0 = k then (k, v) :: rest else (k0, v0) :: setF rest k v

/-- JS truthiness on scalars (`undefined`, `null`, `false`, `0`, `""` are falsy). -/
def truthy : JsVal → Bool
  | .vUndef => false
  | .vNull => false
  | .vBool b => b
  | .vNum q => decide (q ≠ 0)
  | .vStr s => decide (s ≠ "")

/-- JS short-circuit `a || b`. -/
def jsOr (a b : JsVal) : JsVal := if truthy a then a else b

/-- Field-mapping function `transformData(tableName, data)` of
`useSupabaseRealtime.js` (lines 15-45), on a non-null record: each mapped
table adds alias fields via object spread, every alias value being read from
the original record. -/
def transformDataCore (tableName : String) (data : Record) : Record :=
  if tableName = "land_health" then
    setF (setF data
        "created_at" (jsOr (getF data "observation_date") (getF data "created_at")))
        "updated_at" (jsOr (getF data "observation_date") (getF data "updated_at"))
  else if tableName = "degradation_risk" then
    setF (setF (setF (setF data
        "risk_score" (getF data "total_risk_score"))
        "factors" (getF data "risk_factors"))
        "created_at" (jsOr (getF data "assessment_date") (getF data "created_at")))
        "updated_at" (jsOr (getF data "assessment_date") (getF data "updated_at"))
  else if tableName = "climate_data" then
    setF (setF data
        "timestamp" (getF data "date"))
        "temperature" (jsOr (getF data "temperature") (getF data "temp_avg"))
  else data

/-- `transformData` including its `if (!data) return data` guard: a null or
undefined payload passes through untouched. -/
def transformData (tableName : String) : Option Record → Option Record
  | none => none
  | some d => some (transformDataCore tableName d)

/-! ### JavaScript relational comparison, as used by the re-sort comparator -/

def isDigitC (c : Char) : Bool := decide ('0' ≤ c) && decide (c ≤ '9')

def digitsToNat (cs : List Char) : ℕ :=
  cs.foldl (fun a c => a * 10 + (c.toNat - 48)) 0

/-- ECMAScript StringToNumber, restricted to the decimal-literal fragment
(optional sign, digits, optional decimal point and fraction digits, after
whitespace trimming; the empty string is 0). Hex, exponent and Infinity
forms do not occur in this repository's data and are mapped to `none`,
which also stands for NaN (e.g. for an ISO timestamp string). -/
def strToNumber (s : String) : Option ℚ :=
  let cs := s.trim.toList
  if cs = [] then some 0
  else
    let signRest : Bool × List Char :=
      match cs with
      | '-' :: r => (true, r)
      | '+' :: r => (false, r)
      | r => (false, r)
    let neg := signRest.1
    let rest := signRest.2
    let intPart := rest.takeWhile isDigitC
    let after := rest.dropWhile isDigitC
    let core : Option ℚ :=
      match after with
      | [] => if intPart = [] then none else some (digitsToNat intPart : ℚ)
      | '.' :: frac =>
          if frac.all isDigitC && (!intPart.isEmpty || !frac.isEmpty) then
            some ((digitsToNat intPart : ℚ) +
              (digitsToNat frac : ℚ) / (10 : ℚ) ^ frac.length)
          else none
      | _ => none
    core.map (fun q => if neg then -q else q)

/-- ECMAScript ToNumber on scalars; `none` stands for NaN. -/
def toNumber : JsVal → Option ℚ
  | .vUndef => none
  | .vNull => some 0
  | .vBool b => some (if b then 1 else 0)
  | .vNum q => some q
  | .vStr s => strToNumber s

/-- JS string `<`: lexicographic on code units; a proper prefix is smaller.
(Modelled on Unicode scalar values, which agrees with UTF-16 code-unit order
on the strings this repository stores.) -/
def charsLt : List Char → List Char → Bool
  | _, [] => false
  | [], _ :: _ => true
  | c :: cs, d :: ds => if c < d then true else if d < c then false else charsLt cs ds

def strLtB (s t : String) : Bool := charsLt s.toList t.toList

/-- Numeric half of the relational comparison: false when either side is
NaN (`none`). -/
def numLtB : Option ℚ → Option ℚ → Bool
  | some x, some y => decide (x < y)
  | _, _ => false

/-- ECMAScript abstract relational comparison `a < b`: lexicographic when both
operands are strings, otherwise numeric via ToNumber, false when either side
converts to NaN. -/
def jsLtB : JsVal → JsVal → Bool
  | .vStr s, .vStr t => strLtB s t
  | a, b => numLtB (toNumber a) (toNumber b)

/-- ECMAScript `a > b`, which is the relational comparison `b < a`. -/
def jsGtB (a b : JsVal) : Bool := jsLtB b a

structure OrderBy where
  column : String
  ascending : Bool
  deriving DecidableEq

/-- The `compare` value of the re-sort comparator (`useSupabaseRealtime.js`
line 157): `aVal > bVal ? 1 : aVal < bVal ? -1 : 0`. -/
def recCompareBase (aVal bVal : JsVal) : Int :=
  if jsGtB aVal bVal then 1 else if jsLtB aVal bVal then -1 else 0

/-- The full re-sort comparator (lines 153-160): `compare` on the `orderBy`
column's values, negated when `ascending` is falsy. -/
def recCompare (ob : OrderBy) (a b : Record) : Int :=
  if ob.ascending then recCompareBase (getF a ob.column) (getF b ob.column)
  else - recCompareBase (getF a ob.column) (getF b ob.column)

/-- Insert `x` before the first element it need not follow (comparator ≤ 0). -/
def insertLe (le : Record → Record → Bool) (x : Record) : List Record → List Record
  | [] => [x]
  | y :: ys => if le x y then x :: y :: ys else y :: insertLe le x ys

/-- `Array.prototype.sort` with the comparator above: modelled as a stable
insertion sort, which realises the ECMAScript SortCompare contract for a
consistent comparator. -/
def sortRecords (ob : OrderBy) (l : List Record) : List Record :=
  l.foldr (insertLe (fun a b => decide (recCompare ob a b ≤ 0))) []

/-! ### The merge rule (the `setData` updater) -/

inductive EventType where
  | INSERT
  | UPDATE
  | DELETE
  deriving DecidableEq

structure ChangePayload where
  eventType : EventType
  /-- `transformedNew`: `payload.new` after `transformData`, `none` when null. -/
  newRecord : Option Record
  /-- `transformedOld`: `payload.old` after `transformData`, `none` when null. -/
  oldRecord : Option Record

structure SubOptions where
  filter : List (String × JsVal)
  orderBy : Option OrderBy
  /-- `options.limit`; the call sites of this repository pass nonnegative
  integer literals, so it is modelled as a natural number. -/
  limit : Option ℕ

/-- UPDATE branch of the `setData` updater (lines 144-147): replace every
record whose `id` strictly equals the incoming record's `id`. -/
def applyUpdate (nw : Record) (prev : List Record) : List Record :=
  prev.map (fun record => if getF record "id" = getF nw "id" then nw else record)

/-- Re-sort postlude of the updater (lines 152-161): the list is re-sorted
after EVERY event kind whenever `parsedOrderBy && parsedOrderBy.column` is
truthy (i.e. `orderBy` present with a non-empty column). -/
def resortIf (ob : Option OrderBy) (l : List Record) : List Record :=
  match ob with
  | some o => if o.column ≠ "" then sortRecords o l else l
  | none => l

/-- The `setData((prev) => ...)` updater of the realtime callback
(lines 135-162): INSERT prepends and, when `stableLimit` is truthy (nonzero),
truncates with `slice(0, limit)`; UPDATE replaces by id; DELETE filters by id;
afterwards the re-sort postlude runs. -/
def applyChange (opts : SubOptions) (p : ChangePayload) (prev : List Record) :
    List Record :=
  let updated :=
    match p.eventType, p.newRecord, p.oldRecord with
    | .INSERT, some nw, _ =>
        let u := nw :: prev
        match opts.limit with
        | some L => if L ≠ 0 then u.take L else u
        | none => u
    | .UPDATE, some nw, _ => applyUpdate nw prev
    | .DELETE, _, some old =>
        prev.filter (fun record => decide (getF record "id" ≠ getF old "id"))
    | _, _, _ => prev
  resortIf opts.orderBy updated

/-! ### Server-side filters: realtime filter string and snapshot query -/

/-- Template-literal interpolation of a scalar. JS number formatting is exact
for integers; non-integer rationals are rendered as `num/den` (the filter
values of this repository are strings and integers, and no claim depends on
the non-integer rendering). -/
def jsTemplateStr : JsVal → String
  | .vUndef => "undefined"
  | .vNull => "null"
  | .vBool b => if b then "true" else "false"
  | .vNum q =>
      if q.den = 1 then
        (if q.num < 0 then "-" ++ q.num.natAbs.repr else q.num.natAbs.repr)
      else q.num.natAbs.repr ++ "/" ++ q.den.repr
  | .vStr s => s

/-- Realtime channel filter construction (lines 111-117): `undefined` when the
filter map is empty, otherwise an equality predicate built from its FIRST
(key, value) pair only (`Object.keys(parsedFilter)[0]`). -/
def buildFilterString (filter : List (String × JsVal)) : Option String :=
  match filter with
  | [] => none
  | (k, v) :: _ => some (k ++ "=eq." ++ jsTemplateStr v)

/-- Snapshot query construction (lines 72-78): `query.eq(key, value)` chained
over ALL entries of the filter map, interpreted over a row set with PostgREST
equality semantics. -/
def applyEqFilters (filter : List (String × JsVal)) (rows : List Record) :
    List Record :=
  filter.foldl (fun acc kv => acc.filter (fun r => decide (getF r kv.1 = kv.2))) rows

/-! ### JSON values and the recommendation-response decode -/

inductive JVal where
  | jUndef
  | jNull
  | jBool (b : Bool)
  | jNum (q : ℚ)
  | jStr (s : String)
  | jArr (elems : List JVal)
  | jObj (fields : List (String × JVal))

/-- Optional-chained property read `v?.k`: field lookup on an object,
`undefined` on everything else (including arrays, which have no such
property, and null/undefined, which short-circuit). -/
def jGet (v : JVal) (k : String) : JVal :=
  match v with
  | .jObj fields => (fields.lookup k).getD JVal.jUndef
  | _ => JVal.jUndef

/-- JS truthiness on JSON values: objects and arrays are always truthy. -/
def jTruthy : JVal → Bool
  | .jUndef => false
  | .jNull => false
  | .jBool b => b
  | .jNum q => decide (q ≠ 0)
  | .jStr s => decide (s ≠ "")
  | .jArr _ => true
  | .jObj _ => true

/-- JS short-circuit `a || b` on JSON values. -/
def jOr (a b : JVal) : JVal := if jTruthy a then a else b

/-- `Array.isArray`. -/
def isArrayJ : JVal → Bool
  | .jArr _ => true
  | _ => false

/-- `typeof v === 'object'` (true for objects, arrays and null). -/
def isObjectTypeofJ : JVal → Bool
  | .jObj _ => true
  | .jArr _ => true
  | .jNull => true
  | _ => false

/-- Envelope decode of `getRecommendations`' FastAPI fallback (frontend API
module): `response.data?.data?.data || response.data?.data ||
response.data?.recommendations || response.data || []`, followed by the
array coercion (`Array.isArray` check, truthy objects wrapped as a singleton
array, everything else replaced by `[]`). `respData` is `response.data`. -/
def decodeRecommendations (respData : JVal) : JVal :=
  let recommendations :=
    jOr (jGet (jGet respData "data") "data")
      (jOr (jGet respData "data")
        (jOr (jGet respData "recommendations")
          (jOr respData (.jArr []))))
  if isArrayJ recommendations then recommendations
  else if jTruthy recommendations && isObjectTypeofJ recommendations then
    .jArr [recommendations]
  else .jArr []

/-- Modelled from the spec: the decode the claim describes — try the fixed
candidate paths in priority order and select the first ARRAY-TYPED candidate
(defaulting to the empty array). Stated for comparison with
`decodeRecommendations`, the decode the source implements. -/
def specDecodeRecommendations (respData : JVal) : JVal :=
  let cands : List JVal :=
    [jGet (jGet respData "data") "data", jGet respData "data",
     jGet respData "recommendations", respData]
  match cands.find? isArrayJ with
  | some a => a
  | none => .jArr []

/-! ### Handle lifecycle: effect cleanup vs. the in-flight snapshot fetch -/

/-- Client-visible state of one `useSupabaseRealtime` activation: the React
state (`data`, `loading`, `connected`), whether a realtime channel is
registered for the handle (`channelRef.current ≠ null` abstracted as
`channelOpen`), whether the retry timer is pending, and the ghost flag
`cleanedUp` recording that the effect's cleanup has run (deactivation). The
source keeps no such activity flag — `cleanedUp` exists only in the model,
to state what happens after deactivation. -/
structure HandleState where
  records : List Record
  loading : Bool
  connected : Bool
  channelOpen : Bool
  retryPending : Bool
  cleanedUp : Bool
  deriving DecidableEq

/-- The effect cleanup (lines 201-214): remove the channel, null the ref, and
clear any pending retry timer. -/
def cleanup (s : HandleState) : HandleState :=
  { s with channelOpen := false, retryPending := false, cleanedUp := true }

/-- The continuation of `setup` after `await query` resolves successfully
(lines 101-191): `setData(initial || [])`, `setLoading(false)`, removal of
any channel still referenced, then creation and subscription of a NEW
realtime channel stored in `channelRef.current`. No still-active flag is
consulted anywhere along this path. -/
def resumeSnapshot (s : HandleState) (initial : Option (List Record)) :
    HandleState :=
  { s with
      records := initial.getD []
      loading := false
      channelOpen := true }

/-! ### Connection status machine and the reconnect timer guard -/

inductive ChannelStatus where
  | SUBSCRIBED
  | CLOSED
  | CHANNEL_ERROR
  | TIMED_OUT
  deriving DecidableEq

inductive ConnEvent where
  | status (st : ChannelStatus)
  | timerFire
  deriving DecidableEq

/-- Connection-side state of a handle: the `connected` React state, the
`retryTimeout.current ≠ null` slot, and the ghost counter `liveTimers` of
timeouts that are scheduled and neither fired nor cancelled (`setTimeout`
increments it; `clearTimeout` of a live timer and the timer firing
decrement it). -/
structure ConnState where
  connected : Bool
  retryPending : Bool
  liveTimers : ℕ
  deriving DecidableEq

def connInit : ConnState := ⟨false, false, 0⟩

/-- The `.subscribe` status callback (lines 163-189) together with the retry
timer's own callback (lines 181-185, which nulls the ref before
reactivating): SUBSCRIBED sets `connected` and clears a pending timer;
CLOSED/CHANNEL_ERROR clears `connected` and schedules a timer only when the
slot is empty (`if (!retryTimeout.current)`); TIMED_OUT only clears
`connected`; a fire consumes the pending timer. -/
def connStep (s : ConnState) : ConnEvent → ConnState
  | .status .SUBSCRIBED =>
      { s with
          connected := true
          retryPending := false
          liveTimers := if s.retryPending then s.liveTimers - 1 else s.liveTimers }
  | .status .CLOSED =>
      if s.retryPending then { s with connected := false }
      else { s with connected := false, retryPending := true,
                    liveTimers := s.liveTimers + 1 }
  | .status .CHANNEL_ERROR =>
      if s.retryPending then { s with connected := false }
      else { s with connected := false, retryPending := true,
                    liveTimers := s.liveTimers + 1 }
  | .status .TIMED_OUT => { s with connected := false }
  | .timerFire =>
      if s.retryPending then
        { s with retryPending := false, liveTimers := s.liveTimers - 1 }
      else s

/-- The timer-slot invariant: the ghost count of live timers is exactly one
when the slot is occupied and zero otherwise. -/
def connInv (s : ConnState) : Prop :=
  s.liveTimers = if s.retryPending then 1 else 0

/-! ### Concrete scenario data -/

/-- Snapshot record of the limit-1 scenario. -/
def recA : Record := [("id", JsVal.vStr "a"), ("created_at", JsVal.vStr "2025-01-01")]

/-- Inserted record of the limit-1 scenario. -/
def recB : Record := [("id", JsVal.vStr "b"), ("created_at", JsVal.vStr "2025-01-02")]

/-- Subscription options of the limit-1 scenario:
`filter={location_id:"L1"}, orderBy={column:"created_at",ascending:false}, limit=1`. -/
def scenOpts : SubOptions :=
  ⟨[("location_id", JsVal.vStr "L1")], some ⟨"created_at", false⟩, some 1⟩

/-- Subscription options ordering by `created_at` descending, no limit. -/
def descOpts : SubOptions := ⟨[], some ⟨"created_at", false⟩, none⟩

/-- The record of the transform scenario. -/
def demoRisk : Record :=
  [("total_risk_score", JsVal.vNum 61.2), ("risk_factors", JsVal.vStr "drought")]

/-- A response envelope whose highest-priority candidate `data.data.data` is a
truthy non-array object while the later candidate `data.recommendations` is an
array. -/
def cexEnvelope : JVal :=
  .jObj [("data", .jObj [("data", .jObj [("x", .jNum 1)])]),
         ("recommendations", .jArr [.jStr "a"])]

/-- Records with timestamps T1 < T2 < T3 for the descending re-sort scenario. -/
def witR1 : Record := [("id", JsVal.vStr "1"), ("created_at", JsVal.vStr "2025-01-01")]

def witR2 : Record := [("id", JsVal.vStr "2"), ("created_at", JsVal.vStr "2025-01-02")]

def witR3 : Record := [("id", JsVal.vStr "3"), ("created_at", JsVal.vStr "2025-01-03")]

/-! ### Helper lemmas -/

theorem numLtB_none_right (x : Option ℚ) : numLtB x none = false := by
  cases x <;> rfl

theorem isArrayJ_truthy (v : JVal) (h : isArrayJ v = true) : jTruthy v = true := by
  cases v <;> simp_all [isArrayJ, jTruthy]

theorem recCompareBase_undef_left (v : JsVal) : recCompareBase .vUndef v = 0 := by
  cases v <;> simp [recCompareBase, jsGtB, jsLtB, numLtB, numLtB_none_right, toNumber]

theorem recCompareBase_undef_right (v : JsVal) : recCompareBase v .vUndef = 0 := by
  cases v <;> simp [recCompareBase, jsGtB, jsLtB, numLtB, numLtB_none_right, toNumber]

theorem length_insertLe (le : Record → Record → Bool) (x : Record)
    (l : List Record) : (insertLe le x l).length = l.length + 1 := by
  induction l with
  | nil => rfl
  | cons y ys ih =>
      simp only [insertLe]
      split
      · simp
      · simp [ih]

theorem length_sortRecords (ob : OrderBy) (l : List Record) :
    (sortRecords ob l).length = l.length := by
  induction l with
  | nil => rfl
  | cons x xs ih =>
      show (insertLe _ x (sortRecords ob xs)).length = xs.length + 1
      rw [length_insertLe, ih]

theorem length_resortIf (ob : Option OrderBy) (l : List Record) :
    (resortIf ob l).length = l.length := by
  cases ob with
  | none => rfl
  | some o =>
      simp only [resortIf]
      split
      · rw [length_sortRecords]
      · rfl

theorem lookup_setF_isSome (r : Record) (k k0 : String) (v : JsVal)
    (h : (r.lookup k).isSome = true) : ((setF r k0 v).lookup k).isSome = true := by
  induction r with
  | nil => simp [List.lookup] at h
  | cons p rest ih =>
      obtain ⟨k1, v1⟩ := p
      by_cases hk : k1 = k0
      · subst hk
        simp only [setF, if_pos rfl]
        by_cases hkk : k == k1
        · simp [List.lookup, hkk]
        · simp only [List.lookup, hkk] at h
          simp [List.lookup, hkk, h]
      · simp only [setF, if_neg hk]
        by_cases hkk : k == k1
        · simp [List.lookup, hkk]
        · simp only [List.lookup, hkk] at h
          simp [List.lookup, hkk, ih h]

theorem mem_applyEqFilters (f : List (String × JsVal)) (rows : List Record)
    (r : Record) :
    r ∈ applyEqFilters f rows ↔ r ∈ rows ∧ ∀ kv ∈ f, getF r kv.1 = kv.2 := by
  induction f generalizing rows with
  | nil => simp [applyEqFilters]
  | cons kv rest ih =>
      show r ∈ applyEqFilters rest
          (rows.filter (fun r => decide (getF r kv.1 = kv.2))) ↔ _
      rw [ih]
      simp [List.mem_filter]
      tauto

theorem connInv_step (s : ConnState) (e : ConnEvent) (h : connInv s) :
    connInv (connStep s e) := by
  obtain ⟨c, rp, lt⟩ := s
  simp only [connInv] at h
  cases e with
  | status st =>
      cases st <;> cases rp <;>
        simp_all [connStep, connInv]
  | timerFire =>
      cases rp <;> simp_all [connStep, connInv]

theorem connInv_foldl (evts : List ConnEvent) (s : ConnState) (h : connInv s) :
    connInv (evts.foldl connStep s) := by
  induction evts generalizing s with
  | nil => exact h
  | cons e rest ih => exact ih _ (connInv_step s e h)

/-! ### Claim theorems -/

/-- C1: evaluation of the source at the failing schedule — a handle whose
snapshot fetch is in flight is deactivated (cleanup runs), then the snapshot
response resolves. Contrary to the claim, the response is NOT discarded: the
continuation installs the snapshot into the deactivated handle's RecordSet,
clears `loading`, and registers a brand-new change-stream channel, because the
source consults no still-active flag after the `await`. -/
theorem snapshot_after_cleanup_applied :
    (cleanup ⟨[], true, false, false, false, false⟩).cleanedUp = true ∧
    (resumeSnapshot (cleanup ⟨[], true, false, false, false, false⟩)
        (some [recA])).records = [recA] ∧
    (resumeSnapshot (cleanup ⟨[], true, false, false, false, false⟩)
        (some [recA])).records ≠
      (cleanup ⟨[], true, false, false, false, false⟩).records ∧
    (resumeSnapshot (cleanup ⟨[], true, false, false, false, false⟩)
        (some [recA])).channelOpen = true ∧
    (resumeSnapshot (cleanup ⟨[], true, false, false, false, false⟩)
        (some [recA])).loading = false := by
  decide

/-- C2 counterexample: with `limit = 0` — a set limit, but falsy in JS — the
INSERT branch skips the `slice(0, limit)` truncation entirely, so one INSERT
into the empty RecordSet yields length 1 > 0 and the invariant |R| ≤ L fails. -/
theorem insert_with_limit_zero_exceeds_limit :
    ¬ ((applyChange ⟨[], none, some 0⟩
        ⟨.INSERT, some [("id", JsVal.vStr "b")], none⟩ []).length ≤ 0) := by
  decide

/-- C2 (amended to truthy limits): for every nonzero limit L, every INSERT
event leaves the RecordSet with at most L records, whatever the previous
contents and ordering options; and in the limit-1 scenario, inserting
`{id:"b", created_at:"2025-01-02"}` into `[{id:"a", created_at:"2025-01-01"}]`
yields exactly `[{id:"b",...}]`. -/
theorem insert_respects_nonzero_limit (L : ℕ) (hL : 1 ≤ L)
    (f : List (String × JsVal)) (ob : Option OrderBy) (nw : Record)
    (prev : List Record) :
    (applyChange ⟨f, ob, some L⟩ ⟨.INSERT, some nw, none⟩ prev).length ≤ L ∧
    applyChange scenOpts ⟨.INSERT, some recB, none⟩ [recA] = [recB] := by
  refine ⟨?_, by decide⟩
  have hlen : ((nw :: prev).take L).length ≤ L := by
    simp [List.length_take]
  simp only [applyChange]
  rw [if_pos (by omega : L ≠ 0), length_resortIf]
  exact hlen

/-- C2 witness: the amended theorem applied at L = 1 with concrete records. -/
theorem insert_respects_nonzero_limit_witness :
    (applyChange ⟨[], none, some 1⟩ ⟨.INSERT, some recB, none⟩ [recA]).length ≤ 1 :=
  (insert_respects_nonzero_limit 1 (by decide) [] none recB [recA]).1

/-- C3 counterexample: in the source comparator, a null `orderBy` value does
NOT sort below every non-null value, and an undefined value does not either:
with ascending order, null compares ABOVE -5 (comparator 1, because JS
coerces null to the number 0), and undefined compares EQUAL to 5
(comparator 0, because undefined coerces to NaN). -/
theorem null_sorts_above_negative_number :
    recCompare ⟨"score", true⟩ [("score", JsVal.vNull)]
        [("score", JsVal.vNum (-5))] = 1 ∧
    ¬ (recCompare ⟨"score", true⟩ [("score", JsVal.vNull)]
        [("score", JsVal.vNum (-5))] < 0) ∧
    recCompare ⟨"score", true⟩ [("score", JsVal.vUndef)]
        [("score", JsVal.vNum 5)] = 0 ∧
    ¬ (recCompare ⟨"score", true⟩ [("score", JsVal.vUndef)]
        [("score", JsVal.vNum 5)] < 0) := by
  decide

/-- C3 (amended): the comparator follows JS relational semantics — an
undefined value on either side compares equal to everything; a null value
compares exactly as the number 0; two strings compare lexicographically; two
numbers compare numerically; and `ascending=false` negates the comparator's
result. -/
theorem comparator_js_relational_semantics (ob : OrderBy) (a b : Record) :
    (getF a ob.column = .vUndef → recCompare ob a b = 0) ∧
    (getF b ob.column = .vUndef → recCompare ob a b = 0) ∧
    (∀ q : ℚ, getF a ob.column = .vNull → getF b ob.column = .vNum q →
      recCompareBase (getF a ob.column) (getF b ob.column)
        = recCompareBase (.vNum 0) (.vNum q)) ∧
    (∀ s t : String, getF a ob.column = .vStr s → getF b ob.column = .vStr t →
      recCompareBase (getF a ob.column) (getF b ob.column)
        = if strLtB t s then 1 else if strLtB s t then -1 else 0) ∧
    (∀ x y : ℚ, getF a ob.column = .vNum x → getF b ob.column = .vNum y →
      recCompareBase (getF a ob.column) (getF b ob.column)
        = if y < x then 1 else if x < y then -1 else 0) ∧
    (recCompare ⟨ob.column, false⟩ a b = - recCompare ⟨ob.column, true⟩ a b) := by
  refine ⟨?_, ?_, ?_, ?_, ?_, ?_⟩
  · intro h
    simp [recCompare, h, recCompareBase_undef_left]
  · intro h
    simp [recCompare, h, recCompareBase_undef_right]
  · intro q h1 h2
    rw [h1, h2]
    rfl
  · intro s t h1 h2
    rw [h1, h2]
    rfl
  · intro x y h1 h2
    rw [h1, h2]
    simp [recCompareBase, jsGtB, jsLtB, numLtB, toNumber]
  · simp [recCompare]

/-- C3 amended-claim witness: the null-as-zero and undefined-equal cases at
concrete records. -/
theorem comparator_js_relational_semantics_witness :
    recCompareBase (getF [("score", JsVal.vNull)] "score")
        (getF [("score", JsVal.vNum 5)] "score")
      = recCompareBase (.vNum 0) (.vNum 5) ∧
    recCompare ⟨"score", true⟩ [("score", JsVal.vUndef)]
        [("score", JsVal.vNum 5)] = 0 := by
  refine ⟨?_, ?_⟩
  · exact (comparator_js_relational_semantics ⟨"score", true⟩
      [("score", JsVal.vNull)] [("score", JsVal.vNum 5)]).2.2.1 5 (by decide) (by decide)
  · exact (comparator_js_relational_semantics ⟨"score", true⟩
      [("score", JsVal.vUndef)] [("score", JsVal.vNum 5)]).1 (by decide)

/-- C4 counterexample: on an envelope whose `data.data.data` is a truthy
non-array object and whose `data.recommendations` is an array, the source
decode selects the object (wrapping it as a singleton array) instead of the
later array-typed candidate; the first-array-wins decode the claim describes
returns the recommendations array, and the two disagree. -/
theorem truthy_object_selected_over_later_array :
    decodeRecommendations cexEnvelope = .jArr [.jObj [("x", JVal.jNum 1)]] ∧
    specDecodeRecommendations cexEnvelope = .jArr [.jStr "a"] ∧
    decodeRecommendations cexEnvelope ≠ specDecodeRecommendations cexEnvelope := by
  refine ⟨rfl, rfl, ?_⟩
  have hcode : decodeRecommendations cexEnvelope
      = .jArr [.jObj [("x", JVal.jNum 1)]] := rfl
  have hspec : specDecodeRecommendations cexEnvelope = .jArr [.jStr "a"] := rfl
  rw [hcode, hspec]
  intro h
  injection h with h
  injection h with h
  injection h

/-- C4 (amended): the decode selects the first TRUTHY candidate among
`data.data.data`, `data.data`, `data.recommendations`, `data` (JS `||`),
then coerces: an array is kept as-is, a truthy non-array object is wrapped as
a one-element array, anything else becomes `[]`; the result is always an
array, and a whole-response array with no truthy earlier candidate is
returned unchanged. -/
theorem decode_first_truthy_then_coerce (d : JVal) :
    isArrayJ (decodeRecommendations d) = true ∧
    (isArrayJ (jGet (jGet d "data") "data") = true →
      decodeRecommendations d = jGet (jGet d "data") "data") ∧
    (jTruthy (jGet (jGet d "data") "data") = true →
      isArrayJ (jGet (jGet d "data") "data") = false →
      isObjectTypeofJ (jGet (jGet d "data") "data") = true →
      decodeRecommendations d = .jArr [jGet (jGet d "data") "data"]) ∧
    (jTruthy (jGet (jGet d "data") "data") = true →
      isArrayJ (jGet (jGet d "data") "data") = false →
      isObjectTypeofJ (jGet (jGet d "data") "data") = false →
      decodeRecommendations d = .jArr []) ∧
    (isArrayJ d = true → decodeRecommendations d = d) := by
  refine ⟨?_, ?_, ?_, ?_, ?_⟩
  · simp only [decodeRecommendations]
    split
    · assumption
    · split
      · rfl
      · rfl
  · intro h
    have ht := isArrayJ_truthy _ h
    simp [decodeRecommendations, jOr, ht, h]
  · intro h1 h2 h3
    simp [decodeRecommendations, jOr, h1, h2, h3]
  · intro h1 h2 h3
    simp [decodeRecommendations, jOr, h1, h2, h3]
  · intro hd
    cases d <;> simp [isArrayJ] at hd
    rfl

/-- C4 amended-claim witness: a nested-data array is selected as-is, and a
bare array response passes through. -/
theorem decode_first_truthy_then_coerce_witness :
    decodeRecommendations (.jObj [("data", .jObj [("data", .jArr [.jNum 2])])])
      = .jArr [.jNum 2] ∧
    decodeRecommendations (.jArr [.jNum 3]) = .jArr [.jNum 3] := by
  refine ⟨?_, ?_⟩
  · exact ((decode_first_truthy_then_coerce
      (.jObj [("data", .jObj [("data", .jArr [.jNum 2])])])).2.1 rfl).trans rfl
  · exact (decode_first_truthy_then_coerce (.jArr [.jNum 3])).2.2.2.2 rfl

/-- C5: at most one reconnect timer is ever pending. Along every event
sequence from the initial state the ghost count of live timers stays ≤ 1;
a CLOSED or CHANNEL_ERROR status with the retry slot already occupied only
clears `connected` (no second timer); SUBSCRIBED always empties the slot
(and, under the slot invariant, leaves zero live timers); TIMED_OUT only
clears `connected` and never schedules a timer. -/
theorem single_pending_reconnect_timer :
    (∀ evts : List ConnEvent, (evts.foldl connStep connInit).liveTimers ≤ 1) ∧
    (∀ s : ConnState, s.retryPending = true →
      connStep s (.status .CLOSED) = { s with connected := false } ∧
      connStep s (.status .CHANNEL_ERROR) = { s with connected := false }) ∧
    (∀ s : ConnState, (connStep s (.status .SUBSCRIBED)).retryPending = false ∧
      (connInv s → (connStep s (.status .SUBSCRIBED)).liveTimers = 0)) ∧
    (∀ s : ConnState, connStep s (.status .TIMED_OUT) = { s with connected := false }) := by
  refine ⟨?_, ?_, ?_, ?_⟩
  · intro evts
    have h := connInv_foldl evts connInit (by simp [connInv, connInit])
    simp only [connInv] at h
    rw [h]
    split <;> omega
  · intro s hs
    constructor <;> simp [connStep, hs]
  · intro s
    constructor
    · simp [connStep]
    · intro h
      simp only [connInv] at h
      obtain ⟨c, rp, lt⟩ := s
      cases rp <;> simp_all [connStep]
  · intro s
    simp [connStep]

/-- C5 witness: with a retry already pending, a second CLOSED keeps a single
live timer; SUBSCRIBED from that state cancels it. -/
theorem single_pending_reconnect_timer_witness :
    connStep ⟨false, true, 1⟩ (.status .CLOSED) = ⟨false, true, 1⟩ ∧
    (connStep ⟨false, true, 1⟩ (.status .SUBSCRIBED)).liveTimers = 0 ∧
    ([ConnEvent.status .CLOSED,
      ConnEvent.status .CLOSED].foldl connStep connInit).liveTimers ≤ 1 := by
  refine ⟨?_, ?_, ?_⟩
  · exact ((single_pending_reconnect_timer.2.1 ⟨false, true, 1⟩ rfl).1).trans rfl
  · exact (single_pending_reconnect_timer.2.2.1 ⟨false, true, 1⟩).2 rfl
  · exact single_pending_reconnect_timer.1 _

/-- C6: with `orderBy={column:"created_at", ascending:false}` and records
whose `created_at` strings satisfy T1 < T2 < T3, inserting them in ascending
order into an empty RecordSet yields the descending order [T3, T2, T1]. -/
theorem insert_resort_descending (r1 r2 r3 : Record) (t1 t2 t3 : String)
    (h1 : getF r1 "created_at" = .vStr t1) (h2 : getF r2 "created_at" = .vStr t2)
    (h3 : getF r3 "created_at" = .vStr t3)
    (h12 : strLtB t1 t2 = true) (h23 : strLtB t2 t3 = true) :
    applyChange descOpts ⟨.INSERT, some r3, none⟩
      (applyChange descOpts ⟨.INSERT, some r2, none⟩
        (applyChange descOpts ⟨.INSERT, some r1, none⟩ [])) = [r3, r2, r1] := by
  have c21 : recCompare ⟨"created_at", false⟩ r2 r1 = -1 := by
    simp [recCompare, h2, h1, recCompareBase, jsGtB, jsLtB, h12]
  have c32 : recCompare ⟨"created_at", false⟩ r3 r2 = -1 := by
    simp [recCompare, h3, h2, recCompareBase, jsGtB, jsLtB, h23]
  have hle21 : decide (recCompare ⟨"created_at", false⟩ r2 r1 ≤ 0) = true := by
    rw [c21]; rfl
  have hle32 : decide (recCompare ⟨"created_at", false⟩ r3 r2 ≤ 0) = true := by
    rw [c32]; rfl
  have s1 : applyChange descOpts ⟨.INSERT, some r1, none⟩ [] = [r1] := by
    simp [applyChange, descOpts, resortIf, sortRecords, insertLe]
  have s2 : applyChange descOpts ⟨.INSERT, some r2, none⟩ [r1] = [r2, r1] := by
    simp [applyChange, descOpts, resortIf, sortRecords, insertLe, hle21]
  have s3 : applyChange descOpts ⟨.INSERT, some r3, none⟩ [r2, r1] = [r3, r2, r1] := by
    simp [applyChange, descOpts, resortIf, sortRecords, insertLe, hle21, hle32]
  rw [s1, s2, s3]

/-- C6 witness: three concrete records with timestamps 2025-01-01 <
2025-01-02 < 2025-01-03 end up in descending order. -/
theorem insert_resort_descending_witness :
    applyChange descOpts ⟨.INSERT, some witR3, none⟩
      (applyChange descOpts ⟨.INSERT, some witR2, none⟩
        (applyChange descOpts ⟨.INSERT, some witR1, none⟩ [])) =
      [witR3, witR2, witR1] :=
  insert_resort_descending witR1 witR2 witR3
    "2025-01-01" "2025-01-02" "2025-01-03"
    (by decide) (by decide) (by decide) (by decide) (by decide)

/-- C7: the transform is a pure total function that only adds alias fields —
every key of the input record is still present in the output; tables outside
the mapping pass records through unchanged; and for `degradation_risk` the
record `{total_risk_score:61.2, risk_factors:"drought"}` gains
`risk_score:61.2` and `factors:"drought"` while keeping the original
fields. -/
theorem transform_adds_aliases_never_deletes (t : String) (d : Record) :
    (∀ k, (d.lookup k).isSome = true →
      ((transformDataCore t d).lookup k).isSome = true) ∧
    (t ∉ (["land_health", "degradation_risk", "climate_data"] : List String) →
      transformDataCore t d = d) ∧
    getF (transformDataCore "degradation_risk" demoRisk) "risk_score"
      = .vNum 61.2 ∧
    getF (transformDataCore "degradation_risk" demoRisk) "factors"
      = .vStr "drought" ∧
    getF (transformDataCore "degradation_risk" demoRisk) "total_risk_score"
      = .vNum 61.2 ∧
    getF (transformDataCore "degradation_risk" demoRisk) "risk_factors"
      = .vStr "drought" := by
  refine ⟨?_, ?_, by rfl, by rfl, by rfl, by rfl⟩
  · intro k hk
    by_cases h1 : t = "land_health"
    · subst h1
      have e : transformDataCore "land_health" d = setF (setF d
          "created_at" (jsOr (getF d "observation_date") (getF d "created_at")))
          "updated_at" (jsOr (getF d "observation_date") (getF d "updated_at")) := rfl
      rw [e]
      exact lookup_setF_isSome _ _ _ _ (lookup_setF_isSome _ _ _ _ hk)
    · by_cases h2 : t = "degradation_risk"
      · subst h2
        have e : transformDataCore "degradation_risk" d = setF (setF (setF (setF d
            "risk_score" (getF d "total_risk_score"))
            "factors" (getF d "risk_factors"))
            "created_at" (jsOr (getF d "assessment_date") (getF d "created_at")))
            "updated_at" (jsOr (getF d "assessment_date") (getF d "updated_at")) := rfl
        rw [e]
        exact lookup_setF_isSome _ _ _ _ (lookup_setF_isSome _ _ _ _
          (lookup_setF_isSome _ _ _ _ (lookup_setF_isSome _ _ _ _ hk)))
      · by_cases h3 : t = "climate_data"
        · subst h3
          have e : transformDataCore "climate_data" d = setF (setF d
              "timestamp" (getF d "date"))
              "temperature" (jsOr (getF d "temperature") (getF d "temp_avg")) := rfl
          rw [e]
          exact lookup_setF_isSome _ _ _ _ (lookup_setF_isSome _ _ _ _ hk)
        · simp only [transformDataCore, if_neg h1, if_neg h2, if_neg h3]
          exact hk
  · intro hmem
    simp only [List.mem_cons, List.not_mem_nil, or_false, not_or] at hmem
    obtain ⟨h1, h2, h3⟩ := hmem
    simp [transformDataCore, h1, h2, h3]

/-- C7 witness: the unmapped table `alerts` passes the demo record through
unchanged, and its keys survive. -/
theorem transform_adds_aliases_never_deletes_witness :
    ((transformDataCore "alerts" demoRisk).lookup "risk_factors").isSome = true ∧
    transformDataCore "alerts" demoRisk = demoRisk := by
  refine ⟨?_, ?_⟩
  · exact (transform_adds_aliases_never_deletes "alerts" demoRisk).1
      "risk_factors" (by decide)
  · exact (transform_adds_aliases_never_deletes "alerts" demoRisk).2.1 (by decide)

/-- C8: the realtime channel filter is built from exactly the first
(key, value) pair of the filter map as an equality predicate — the remaining
pairs do not influence it — and it is unset for the empty map; by contrast,
the snapshot query keeps precisely the rows satisfying ALL filter pairs. -/
theorem stream_filter_first_pair_only (k : String) (v : JsVal)
    (rest f : List (String × JsVal)) (rows : List Record) (r : Record) :
    buildFilterString [] = none ∧
    buildFilterString ((k, v) :: rest) = some (k ++ "=eq." ++ jsTemplateStr v) ∧
    buildFilterString ((k, v) :: rest) = buildFilterString [(k, v)] ∧
    (r ∈ applyEqFilters f rows ↔ r ∈ rows ∧ ∀ kv ∈ f, getF r kv.1 = kv.2) :=
  ⟨rfl, rfl, rfl, mem_applyEqFilters f rows r⟩

/-- C9: the UPDATE merge replaces exactly the records whose id strictly
equals the incoming id (positionally, every slot holds either the original
record or the replacement, by the id test), and when no record matches, the
RecordSet is left unchanged — no insert-on-update. -/
theorem update_by_id_no_insert (nw : Record) (prev : List Record) :
    ((∀ r ∈ prev, ¬ getF r "id" = getF nw "id") → applyUpdate nw prev = prev) ∧
    (∀ i : ℕ, (applyUpdate nw prev)[i]? =
      (prev[i]?).map (fun r => if getF r "id" = getF nw "id" then nw else r)) := by
  constructor
  · intro h
    induction prev with
    | nil => rfl
    | cons r rest ih =>
        simp only [applyUpdate, List.map_cons,
          if_neg (h r (List.mem_cons_self r rest))]
        have := ih (fun r hr => h r (List.mem_cons_of_mem _ hr))
        simp only [applyUpdate] at this
        rw [this]
  · intro i
    simp [applyUpdate]

/-- C9 witness: an UPDATE whose id "b" matches nothing in `[recA]` (id "a")
leaves the RecordSet unchanged. -/
theorem update_by_id_no_insert_witness :
    applyUpdate recB [recA] = [recA] :=
  (update_by_id_no_insert recB [recA]).1 (by decide)

/-- C10: an UPDATE event leaves the RecordSet length exactly unchanged (both
the id-replacement map and the re-sort are length-preserving), and a DELETE
event never increases it; hence only INSERT events can grow the RecordSet. -/
theorem only_insert_grows_recordset (opts : SubOptions) (p : ChangePayload)
    (prev : List Record) :
    (p.eventType = .UPDATE → (applyChange opts p prev).length = prev.length) ∧
    (p.eventType = .DELETE → (applyChange opts p prev).length ≤ prev.length) := by
  obtain ⟨et, nw, old⟩ := p
  constructor
  · intro h
    replace h : et = .UPDATE := h
    subst h
    cases nw with
    | none =>
        cases old <;>
          · simp only [applyChange]
            rw [length_resortIf]
    | some w =>
        cases old <;>
          · simp only [applyChange, applyUpdate]
            rw [length_resortIf, List.length_map]
  · intro h
    replace h : et = .DELETE := h
    subst h
    cases old with
    | none =>
        cases nw <;>
          · simp only [applyChange]
            rw [length_resortIf]
    | some o =>
        cases nw <;>
          · simp only [applyChange]
            rw [length_resortIf]
            exact List.length_filter_le _ _

/-- C10 witness: an unmatched UPDATE keeps length 1; a matching DELETE does
not grow the set. -/
theorem only_insert_grows_recordset_witness :
    (applyChange scenOpts ⟨.UPDATE, some recB, none⟩ [recA]).length = 1 ∧
    (applyChange scenOpts ⟨.DELETE, none, some recA⟩ [recA]).length ≤ 1 := by
  refine ⟨?_, ?_⟩
  · exact ((only_insert_grows_recordset scenOpts
      ⟨.UPDATE, some recB, none⟩ [recA]).1 rfl).trans rfl
  · exact (only_insert_grows_recordset scenOpts
      ⟨.DELETE, none, some recA⟩ [recA]).2 rfl

end TerraGuard
